import Mathlib

/-! Shallow embedding of `designate/mdns/notify.py` (class `NotifyEndpoint`):
the SOA convergence poller `get_serial_number`, the retrying sender
`_make_and_send_dns_message` and the message builder `_make_dns_message`.

The DNS transport (`dnsutils.send_dns_message`, an external collaborator) is
modelled as an oracle mapping the constructed query and the global attempt
index to the observable outcome of that send attempt: a parsed reply, an
EAGAIN socket condition, a timeout, a malformed reply (`BadResponse`), or an
unclassified fatal socket error.  Sleeps, logging, and the host/port/timeout
values do not influence the control flow under verification and are not
modelled.  The outer `while True:` loop of `get_serial_number` is embedded
with an explicit fuel parameter; `max_retries + 1` units of fuel are shown
sufficient (theorem `C8_budget_termination`), since every non-terminal outer
iteration strictly decreases `retries_left`. -/

namespace Designate

/-- Value of `dns.rcode.NOERROR`. -/
def rcode_NOERROR : Nat := 0

/-- Value of `dns.rcode.SERVFAIL`. -/
def rcode_SERVFAIL : Nat := 2

/-- Value of `dns.rcode.NXDOMAIN`. -/
def rcode_NXDOMAIN : Nat := 3

/-- Value of `dns.rcode.REFUSED`. -/
def rcode_REFUSED : Nat := 5

/-- Value of `dns.rdataclass.IN`. -/
def rdataclass_IN : Nat := 1

/-- Value of `dns.rdatatype.SOA`. -/
def rdatatype_SOA : Nat := 6

/-- Value of `dns.opcode.QUERY`. -/
def opcode_QUERY : Nat := 0

/-- Value of `dns.opcode.NOTIFY`. -/
def opcode_NOTIFY : Nat := 4

/-- Value of `dns.flags.AA` (authoritative answer header bit). -/
def flags_AA : Nat := 0x0400

/-- Value of `dns.flags.RD` (recursion desired header bit). -/
def flags_RD : Nat := 0x0100

/-- One rdata item of an SOA rdataset; only its `serial` field is read by
`get_serial_number` (`list(rrset.to_rdataset().items)[0].serial`). -/
structure SOARdata where
  serial : Nat
  deriving DecidableEq

/-- One rrset of the answer section of a parsed DNS response, with the
fields read by `get_serial_number`: `name` (as `str(...)`), `rdclass`,
`rdtype` and the rdataset items. -/
structure RRset where
  name : String
  rdclass : Nat
  rdtype : Nat
  items : List SOARdata
  deriving DecidableEq

/-- A parsed DNS response as observed by the code under verification:
`response.rcode()`, `response.flags`, `response.ednsflags` and
`response.answer`. -/
structure DNSResponse where
  rcode : Nat
  flags : Nat
  ednsflags : Nat
  answer : List RRset
  deriving DecidableEq

/-- The DNS message built by `_make_dns_message`: query name, record type,
opcode and header flags. -/
structure DNSQuery where
  qname : String
  rdtype : Nat
  opcode : Nat
  flags : Nat
  deriving DecidableEq

/-- The designate zone object as read by `get_serial_number`: `zone.name`,
`zone.serial` (the expected serial) and `zone.action`. -/
structure Zone where
  name : String
  serial : Nat
  action : String
  deriving DecidableEq

/-- Models `dns.message.make_query(qname, rdtype)` of the external dnspython
library: a message with opcode QUERY and the RD flag set by default. -/
def make_query (qname : String) (rdtype : Nat) : DNSQuery :=
  { qname := qname, rdtype := rdtype, opcode := opcode_QUERY, flags := flags_RD }

/-- Embeds `NotifyEndpoint._make_dns_message`: build an SOA query for
`zone_name`, clear the flags, then set opcode NOTIFY plus flag AA when
`notify` is true, and opcode QUERY plus flag RD otherwise. -/
def _make_dns_message (zone_name : String) (notify : Bool) : DNSQuery :=
  let dns_message := make_query zone_name rdatatype_SOA
  let dns_message := { dns_message with flags := 0 }
  if notify then
    { dns_message with opcode := opcode_NOTIFY, flags := dns_message.flags ||| flags_AA }
  else
    { dns_message with opcode := opcode_QUERY, flags := dns_message.flags ||| flags_RD }

/-- Models `dns.rcode.from_flags(flags, ednsflags)` of the external dnspython
library: the low four bits of the header flags joined with the extended
rcode bits taken from the EDNS flags. -/
def rcode_from_flags (flags ednsflags : Nat) : Nat :=
  (flags &&& 0x000F) ||| ((ednsflags >>> 20) &&& 0xFF0)

/-- The tuple `(dns.rcode.NXDOMAIN, dns.rcode.REFUSED, dns.rcode.SERVFAIL)`
used both by `get_serial_number` and by the response-validity filter of
`_make_and_send_dns_message`. -/
def refused_statuses : List Nat := [rcode_NXDOMAIN, rcode_REFUSED, rcode_SERVFAIL]

/-- Embeds the response-validity filter at the end of
`NotifyEndpoint._make_and_send_dns_message`: a response whose rcode is
refused-like, or NOERROR with an empty answer section, is kept as a
legitimate no-such-zone signal; otherwise a response without the AA flag or
whose recomputed rcode is not NOERROR is discarded (`response = None`);
otherwise the response is returned unchanged. -/
def responseFilter (response : DNSResponse) : Option DNSResponse :=
  if refused_statuses.contains response.rcode ||
      (response.rcode == rcode_NOERROR && response.answer.isEmpty) then
    some response
  else if (response.flags &&& flags_AA == 0) ||
      (rcode_from_flags response.flags response.ednsflags != rcode_NOERROR) then
    none
  else
    some response

/-- Observable outcome of one transport send attempt
(`dnsutils.send_dns_message`): a parsed reply, a retryable EAGAIN socket
error, a `dns.exception.Timeout`, a malformed reply (`BadResponse`), or an
unclassified fatal socket error that the code re-raises. -/
inductive AttemptOutcome where
  | reply (response : DNSResponse)
  | eagain
  | timeout
  | badResponse
  | fatal
  deriving DecidableEq

/-- How the inner `while retry < max_retries:` loop of
`_make_and_send_dns_message` exits. -/
inductive InnerExit where
  | gotReply (response : DNSResponse)
  | aborted
  | exhausted
  | raised
  deriving DecidableEq

/-- Embeds the inner attempt loop of `_make_and_send_dns_message`.  `send`
is the transport oracle already applied to the constructed message, `sent`
the global index of the next attempt, and the last argument the remaining
attempt budget (`max_retries - retry`).  Returns the exit kind together
with the number of send attempts performed (the final value of `retry`). -/
def attemptLoop (send : Nat → AttemptOutcome) : Nat → Nat → InnerExit × Nat
  | _, 0 => (.exhausted, 0)
  | sent, fuel + 1 =>
    match send sent with
    | .reply r => (.gotReply r, 1)
    | .eagain => ((attemptLoop send (sent + 1) fuel).1, (attemptLoop send (sent + 1) fuel).2 + 1)
    | .timeout => ((attemptLoop send (sent + 1) fuel).1, (attemptLoop send (sent + 1) fuel).2 + 1)
    | .badResponse => (.aborted, 1)
    | .fatal => (.raised, 1)

/-- Result of `_make_and_send_dns_message`: either the returned pair
`(response, retry)`, or the propagated fatal socket error together with the
number of attempts performed before the raise. -/
inductive SendOutcome where
  | ok (response : Option DNSResponse) (retry : Nat)
  | raised (retry : Nat)
  deriving DecidableEq

/-- Embeds `NotifyEndpoint._make_and_send_dns_message`: build the message,
run the attempt loop, return `(None, retry)` when no response was obtained,
and otherwise the filtered response with the attempt count. -/
def _make_and_send_dns_message (oracle : DNSQuery → Nat → AttemptOutcome) (zone : Zone)
    (sent max_retries : Nat) (notify : Bool) : SendOutcome :=
  match attemptLoop (oracle (_make_dns_message zone.name notify)) sent max_retries with
  | (.gotReply r, retry) => .ok (responseFilter r) retry
  | (.aborted, retry) => .ok none retry
  | (.exhausted, retry) => .ok none retry
  | (.raised, retry) => .raised retry

/-- Embeds the first classification guard of `get_serial_number`:
`response and (response.rcode() in (NXDOMAIN, REFUSED, SERVFAIL) or not
bool(response.answer))`. -/
def noZoneSignal : Option DNSResponse → Bool
  | none => false
  | some r => refused_statuses.contains r.rcode || r.answer.isEmpty

/-- Embeds the second classification guard of `get_serial_number`: the
response has exactly one answer rrset whose owner name equals the zone
name, with class IN and type SOA. -/
def isExpectedSoa (response : Option DNSResponse) (zone : Zone) : Bool :=
  match response with
  | none => false
  | some r =>
    match r.answer with
    | [rrset] => rrset.name == zone.name && rrset.rdclass == rdataclass_IN &&
        rrset.rdtype == rdatatype_SOA
    | _ => false

/-- Embeds `list(rrset.to_rdataset().items)[0].serial` on the first answer
rrset; `none` corresponds to the IndexError the source would raise on an
empty rdataset (surfaced as `PollResult.raised` by the poll loop). -/
def extractSerial (response : Option DNSResponse) : Option Nat :=
  match response with
  | some r =>
    match r.answer with
    | rrset :: _ =>
      match rrset.items with
      | rd :: _ => some rd.serial
      | [] => none
    | [] => none
  | none => none

/-- Result of `get_serial_number`: the returned triple
`(status, actual_serial, retries_left)`, the propagation of an unhandled
exception, or fuel exhaustion of the embedding (shown unreachable for fuel
`max_retries + 1`). -/
inductive PollResult where
  | ok (status : String) (actual_serial : Option Nat) (retries_left : Nat)
  | raised
  | fuelOut
  deriving DecidableEq

/-- Outcome of one outer iteration after classification: either the loop
breaks with a final result, or it continues with updated status, serial and
budget. -/
inductive StepR where
  | done (result : PollResult)
  | next (status : String) (actual_serial : Option Nat) (retries_left : Nat)
  deriving DecidableEq

/-- Embeds the convergence test `actual_serial is not None and
actual_serial >= zone.serial`. -/
def converged (actual_serial : Option Nat) (expected : Nat) : Bool :=
  match actual_serial with
  | none => false
  | some a => decide (expected ≤ a)

/-- Embeds the tail of one outer iteration of `get_serial_number`: the
convergence check (break with SUCCESS before any budget decrement), then
`retries_left -= retry_cnt` followed by the `if not retries_left: break`
exhaustion check, else continue the loop. -/
def pollStep (zone : Zone) (status : String) (actual_serial : Option Nat)
    (retries_left retry_cnt : Nat) : StepR :=
  if converged actual_serial zone.serial then
    .done (.ok "SUCCESS" actual_serial retries_left)
  else if retries_left - retry_cnt = 0 then
    .done (.ok status actual_serial (retries_left - retry_cnt))
  else
    .next status actual_serial (retries_left - retry_cnt)

/-- Embeds the `if`/`elif` classification of one outer iteration of
`get_serial_number`: a no-zone signal sets the status to NO_ZONE and
short-circuits when the zone is expected absent; an expected single SOA
answer updates `actual_serial`; anything else leaves both unchanged. -/
def classifyResponse (zone : Zone) (response : Option DNSResponse) (status : String)
    (actual_serial : Option Nat) (retries_left retry_cnt : Nat) : StepR :=
  if noZoneSignal response then
    if zone.serial = 0 ∧ (zone.action = "DELETE" ∨ zone.action = "NONE") then
      .done (.ok "NO_ZONE" (some 0) retries_left)
    else
      pollStep zone "NO_ZONE" actual_serial retries_left retry_cnt
  else if isExpectedSoa response zone then
    match extractSerial response with
    | some s => pollStep zone status (some s) retries_left retry_cnt
    | none => .done .raised
  else
    pollStep zone status actual_serial retries_left retry_cnt

/-- Embeds the outer `while True:` loop of `get_serial_number`, with an
explicit fuel parameter bounding the number of outer iterations. -/
def pollLoop (oracle : DNSQuery → Nat → AttemptOutcome) (zone : Zone) :
    Nat → Nat → String → Option Nat → Nat → PollResult
  | 0, _, _, _, _ => .fuelOut
  | fuel + 1, sent, status, actual_serial, retries_left =>
    match _make_and_send_dns_message oracle zone sent retries_left false with
    | .raised _ => .raised
    | .ok response retry_cnt =>
      match classifyResponse zone response status actual_serial retries_left retry_cnt with
      | .done result => result
      | .next status' actual' retries' =>
        pollLoop oracle zone fuel (sent + retry_cnt) status' actual' retries'

/-- Embeds `NotifyEndpoint.get_serial_number`: start with
`actual_serial = None`, `status = 'ERROR'`, `retries_left = max_retries`,
and run the outer loop; fuel `max_retries + 1` is sufficient because every
non-terminal outer iteration strictly decreases `retries_left`. -/
def get_serial_number (oracle : DNSQuery → Nat → AttemptOutcome) (zone : Zone)
    (max_retries : Nat) : PollResult :=
  pollLoop oracle zone (max_retries + 1) 0 "ERROR" none max_retries

/-- Observation on a modelled poll run: whether some outer iteration of the
run classified its response as a no-such-zone signal (took the branch at
the first classification guard of `get_serial_number`).  This replays
exactly the control flow of `pollLoop` — same transport results, same
classification, same continuation — and records the guard of each
iteration instead of the result. -/
def pollLoopSawNoZone (oracle : DNSQuery → Nat → AttemptOutcome) (zone : Zone) :
    Nat → Nat → String → Option Nat → Nat → Bool
  | 0, _, _, _, _ => false
  | fuel + 1, sent, status, actual_serial, retries_left =>
    match _make_and_send_dns_message oracle zone sent retries_left false with
    | .raised _ => false
    | .ok response retry_cnt =>
      noZoneSignal response ||
        (match classifyResponse zone response status actual_serial retries_left retry_cnt with
        | .done _ => false
        | .next status' actual' retries' =>
          pollLoopSawNoZone oracle zone fuel (sent + retry_cnt) status' actual' retries')

/-- Whether the run of `get_serial_number` classified a no-such-zone signal
in some of its iterations. -/
def sawNoZoneSignal (oracle : DNSQuery → Nat → AttemptOutcome) (zone : Zone)
    (max_retries : Nat) : Bool :=
  pollLoopSawNoZone oracle zone (max_retries + 1) 0 "ERROR" none max_retries



/-- Number of send attempts reported by a `SendOutcome`. -/
def SendOutcome.retryCount : SendOutcome → Nat
  | .ok _ k => k
  | .raised k => k

theorem attemptLoop_count_le (send : Nat → AttemptOutcome) (sent fuel : Nat) :
    (attemptLoop send sent fuel).2 ≤ fuel := by
  induction fuel generalizing sent with
  | zero => simp [attemptLoop]
  | succ n ih =>
    have h1 := ih (sent + 1)
    cases h : send sent <;> simp [attemptLoop, h] <;> omega

theorem attemptLoop_count_pos (send : Nat → AttemptOutcome) (sent fuel : Nat) (h : 1 ≤ fuel) :
    1 ≤ (attemptLoop send sent fuel).2 := by
  cases fuel with
  | zero => omega
  | succ n => cases h0 : send sent <;> simp [attemptLoop, h0]

theorem attemptLoop_frame (send send' : Nat → AttemptOutcome) (sent fuel : Nat)
    (h : ∀ i, sent ≤ i → i < sent + (attemptLoop send sent fuel).2 → send' i = send i) :
    attemptLoop send' sent fuel = attemptLoop send sent fuel := by
  induction fuel generalizing sent with
  | zero => simp [attemptLoop]
  | succ n ih =>
    have hpos : 1 ≤ (attemptLoop send sent (n + 1)).2 :=
      attemptLoop_count_pos send sent (n + 1) (by omega)
    have hs : send' sent = send sent := h sent (Nat.le_refl sent) (by omega)
    cases h0 : send sent with
    | reply r => simp [attemptLoop, h0, hs]
    | eagain =>
      have hrec : attemptLoop send' (sent + 1) n = attemptLoop send (sent + 1) n := by
        apply ih
        intro i hi1 hi2
        apply h i (by omega)
        have hcnt : (attemptLoop send sent (n + 1)).2 = (attemptLoop send (sent + 1) n).2 + 1 := by
          simp [attemptLoop, h0]
        omega
      simp [attemptLoop, h0, hs, hrec]
    | timeout =>
      have hrec : attemptLoop send' (sent + 1) n = attemptLoop send (sent + 1) n := by
        apply ih
        intro i hi1 hi2
        apply h i (by omega)
        have hcnt : (attemptLoop send sent (n + 1)).2 = (attemptLoop send (sent + 1) n).2 + 1 := by
          simp [attemptLoop, h0]
        omega
      simp [attemptLoop, h0, hs, hrec]
    | badResponse => simp [attemptLoop, h0, hs]
    | fatal => simp [attemptLoop, h0, hs]

theorem attemptLoop_reply_mem (send : Nat → AttemptOutcome) (sent fuel : Nat) (r : DNSResponse)
    (h : (attemptLoop send sent fuel).1 = .gotReply r) : ∃ i, send i = .reply r := by
  induction fuel generalizing sent with
  | zero => simp [attemptLoop] at h
  | succ n ih =>
    cases h0 : send sent with
    | reply r0 =>
      simp [attemptLoop, h0] at h
      exact ⟨sent, by rw [h0, h]⟩
    | eagain =>
      simp only [attemptLoop, h0] at h
      exact ih (sent + 1) h
    | timeout =>
      simp only [attemptLoop, h0] at h
      exact ih (sent + 1) h
    | badResponse => simp [attemptLoop, h0] at h
    | fatal => simp [attemptLoop, h0] at h

theorem attemptLoop_all_transient (send : Nat → AttemptOutcome)
    (h : ∀ i, send i = .eagain ∨ send i = .timeout) (sent fuel : Nat) :
    attemptLoop send sent fuel = (.exhausted, fuel) := by
  induction fuel generalizing sent with
  | zero => simp [attemptLoop]
  | succ n ih =>
    rcases h sent with h0 | h0 <;> simp [attemptLoop, h0, ih (sent + 1)]

theorem responseFilter_some (r r' : DNSResponse) (h : responseFilter r = some r') : r' = r := by
  unfold responseFilter at h
  split at h
  · exact (Option.some_inj.mp h).symm
  · split at h
    · simp at h
    · exact (Option.some_inj.mp h).symm

theorem make_and_send_retryCount (oracle : DNSQuery → Nat → AttemptOutcome) (zone : Zone)
    (sent b : Nat) (notify : Bool) :
    (_make_and_send_dns_message oracle zone sent b notify).retryCount =
      (attemptLoop (oracle (_make_dns_message zone.name notify)) sent b).2 := by
  unfold _make_and_send_dns_message
  cases hA : attemptLoop (oracle (_make_dns_message zone.name notify)) sent b with
  | mk e k => cases e <;> simp [SendOutcome.retryCount]

theorem make_and_send_ok_bounds (oracle : DNSQuery → Nat → AttemptOutcome) (zone : Zone)
    (sent b : Nat) (notify : Bool) (resp : Option DNSResponse) (k : Nat)
    (h : _make_and_send_dns_message oracle zone sent b notify = .ok resp k) :
    k ≤ b ∧ (1 ≤ b → 1 ≤ k) := by
  have hle := attemptLoop_count_le (oracle (_make_dns_message zone.name notify)) sent b
  have hpos := attemptLoop_count_pos (oracle (_make_dns_message zone.name notify)) sent b
  have hrc := make_and_send_retryCount oracle zone sent b notify
  rw [h] at hrc
  simp [SendOutcome.retryCount] at hrc
  constructor
  · omega
  · intro hb
    have := hpos hb
    omega

theorem make_and_send_some_reply (oracle : DNSQuery → Nat → AttemptOutcome) (zone : Zone)
    (sent b : Nat) (notify : Bool) (r : DNSResponse) (k : Nat)
    (h : _make_and_send_dns_message oracle zone sent b notify = .ok (some r) k) :
    ∃ i, oracle (_make_dns_message zone.name notify) i = .reply r := by
  unfold _make_and_send_dns_message at h
  cases hA : attemptLoop (oracle (_make_dns_message zone.name notify)) sent b with
  | mk e kk =>
    rw [hA] at h
    cases e with
    | gotReply r0 =>
      simp at h
      obtain ⟨hf, -⟩ := h
      have hr : r = r0 := responseFilter_some r0 r hf
      obtain ⟨i, hi⟩ := attemptLoop_reply_mem _ sent b r0 (by rw [hA])
      exact ⟨i, by rw [hr]; exact hi⟩
    | aborted => simp at h
    | exhausted => simp at h
    | raised => simp at h

theorem make_and_send_frame (oracle oracle' : DNSQuery → Nat → AttemptOutcome) (zone : Zone)
    (sent b : Nat) (notify : Bool)
    (h : ∀ i, sent ≤ i → i < sent + b →
      oracle' (_make_dns_message zone.name notify) i = oracle (_make_dns_message zone.name notify) i) :
    _make_and_send_dns_message oracle' zone sent b notify =
      _make_and_send_dns_message oracle zone sent b notify := by
  unfold _make_and_send_dns_message
  have hAL : attemptLoop (oracle' (_make_dns_message zone.name notify)) sent b =
      attemptLoop (oracle (_make_dns_message zone.name notify)) sent b := by
    apply attemptLoop_frame
    intro i h1 h2
    have hb := attemptLoop_count_le (oracle (_make_dns_message zone.name notify)) sent b
    exact h i h1 (by omega)
  rw [hAL]

theorem pollStep_next (zone : Zone) (status : String) (a : Option Nat) (rl rc : Nat)
    (s' : String) (a' : Option Nat) (rl' : Nat)
    (h : pollStep zone status a rl rc = .next s' a' rl') :
    s' = status ∧ a' = a ∧ rl' = rl - rc ∧ rl - rc ≠ 0 := by
  unfold pollStep at h
  split at h
  · simp at h
  · split at h
    · simp at h
    next h0 =>
      obtain ⟨h1, h2, h3⟩ := StepR.next.inj h
      exact ⟨h1.symm, h2.symm, h3.symm, h0⟩

theorem pollStep_done (zone : Zone) (status : String) (a : Option Nat) (rl rc : Nat)
    (res : PollResult) (h : pollStep zone status a rl rc = .done res) :
    res = .ok "SUCCESS" a rl ∨ (res = .ok status a 0 ∧ rl - rc = 0) := by
  unfold pollStep at h
  split at h
  · left
    exact (StepR.done.inj h).symm
  · split at h
    next h0 =>
      right
      have h1 := (StepR.done.inj h).symm
      rw [h0] at h1
      exact ⟨h1, h0⟩
    · simp at h

theorem classifyResponse_next (zone : Zone) (resp : Option DNSResponse) (status : String)
    (a : Option Nat) (rl rc : Nat) (s' : String) (a' : Option Nat) (rl' : Nat)
    (h : classifyResponse zone resp status a rl rc = .next s' a' rl') :
    (s' = status ∨ s' = "NO_ZONE") ∧ rl' = rl - rc ∧ rl - rc ≠ 0 := by
  unfold classifyResponse at h
  split at h
  · split at h
    · simp at h
    · obtain ⟨h1, h2, h3, h4⟩ := pollStep_next _ _ _ _ _ _ _ _ h
      exact ⟨Or.inr h1, h3, h4⟩
  · split at h
    · split at h
      · obtain ⟨h1, h2, h3, h4⟩ := pollStep_next _ _ _ _ _ _ _ _ h
        exact ⟨Or.inl h1, h3, h4⟩
      · simp at h
    · obtain ⟨h1, h2, h3, h4⟩ := pollStep_next _ _ _ _ _ _ _ _ h
      exact ⟨Or.inl h1, h3, h4⟩

theorem classifyResponse_done (zone : Zone) (resp : Option DNSResponse) (status : String)
    (a : Option Nat) (rl rc : Nat) (res : PollResult)
    (h : classifyResponse zone resp status a rl rc = .done res) :
    res = .raised ∨ res = .ok "NO_ZONE" (some 0) rl ∨
      (∃ aa, res = .ok "SUCCESS" aa rl) ∨
      (∃ st aa, res = .ok st aa 0 ∧ (st = status ∨ st = "NO_ZONE")) := by
  unfold classifyResponse at h
  split at h
  · split at h
    · right; left
      exact (StepR.done.inj h).symm
    · rcases pollStep_done _ _ _ _ _ _ h with h1 | ⟨h1, h2⟩
      · right; right; left; exact ⟨a, h1⟩
      · right; right; right; exact ⟨"NO_ZONE", a, h1, Or.inr rfl⟩
  · split at h
    · split at h
      next s hs =>
        rcases pollStep_done _ _ _ _ _ _ h with h1 | ⟨h1, h2⟩
        · right; right; left; exact ⟨some s, h1⟩
        · right; right; right; exact ⟨status, some s, h1, Or.inl rfl⟩
      · left; exact (StepR.done.inj h).symm
    · rcases pollStep_done _ _ _ _ _ _ h with h1 | ⟨h1, h2⟩
      · right; right; left; exact ⟨a, h1⟩
      · right; right; right; exact ⟨status, a, h1, Or.inl rfl⟩

theorem classifyResponse_no_signal_done (zone : Zone) (resp : Option DNSResponse)
    (status : String) (a : Option Nat) (rl rc : Nat) (res : PollResult)
    (hnz : noZoneSignal resp = false)
    (h : classifyResponse zone resp status a rl rc = .done res) :
    res = .raised ∨ (∃ aa, res = .ok "SUCCESS" aa rl) ∨ (∃ aa, res = .ok status aa 0) := by
  unfold classifyResponse at h
  split at h
  next hcond => rw [hnz] at hcond; simp at hcond
  split at h
  · split at h
    next s hs =>
      rcases pollStep_done _ _ _ _ _ _ h with h1 | ⟨h1, h2⟩
      · right; left; exact ⟨some s, h1⟩
      · right; right; exact ⟨some s, h1⟩
    · left; exact (StepR.done.inj h).symm
  · rcases pollStep_done _ _ _ _ _ _ h with h1 | ⟨h1, h2⟩
    · right; left; exact ⟨a, h1⟩
    · right; right; exact ⟨a, h1⟩

theorem classifyResponse_no_signal_next (zone : Zone) (resp : Option DNSResponse)
    (status : String) (a : Option Nat) (rl rc : Nat) (s' : String) (a' : Option Nat) (rl' : Nat)
    (hnz : noZoneSignal resp = false)
    (h : classifyResponse zone resp status a rl rc = .next s' a' rl') :
    s' = status ∧ rl' = rl - rc ∧ rl - rc ≠ 0 := by
  unfold classifyResponse at h
  split at h
  next hcond => rw [hnz] at hcond; simp at hcond
  split at h
  · split at h
    · obtain ⟨h1, h2, h3, h4⟩ := pollStep_next _ _ _ _ _ _ _ _ h
      exact ⟨h1, h3, h4⟩
    · simp at h
  · obtain ⟨h1, h2, h3, h4⟩ := pollStep_next _ _ _ _ _ _ _ _ h
    exact ⟨h1, h3, h4⟩

theorem classifyResponse_signal_done (zone : Zone) (resp : Option DNSResponse)
    (status : String) (a : Option Nat) (rl rc : Nat) (res : PollResult)
    (hnz : noZoneSignal resp = true)
    (h : classifyResponse zone resp status a rl rc = .done res) :
    res = .ok "NO_ZONE" (some 0) rl ∨ (∃ aa, res = .ok "SUCCESS" aa rl) ∨
      ∃ aa, res = .ok "NO_ZONE" aa 0 := by
  unfold classifyResponse at h
  split at h
  · split at h
    · left
      exact (StepR.done.inj h).symm
    · rcases pollStep_done _ _ _ _ _ _ h with h1 | ⟨h1, h2⟩
      · right; left; exact ⟨a, h1⟩
      · right; right; exact ⟨a, h1⟩
  next hcond => exact absurd hnz hcond

theorem classifyResponse_signal_next (zone : Zone) (resp : Option DNSResponse)
    (status : String) (a : Option Nat) (rl rc : Nat)
    (s' : String) (a' : Option Nat) (rl' : Nat)
    (hnz : noZoneSignal resp = true)
    (h : classifyResponse zone resp status a rl rc = .next s' a' rl') :
    s' = "NO_ZONE" ∧ a' = a ∧ rl' = rl - rc ∧ rl - rc ≠ 0 := by
  unfold classifyResponse at h
  split at h
  · split at h
    · simp at h
    · exact pollStep_next _ _ _ _ _ _ _ _ h
  next hcond => exact absurd hnz hcond

theorem pollLoop_ne_fuelOut (oracle : DNSQuery → Nat → AttemptOutcome) (zone : Zone) :
    ∀ fuel sent status a rl, rl < fuel →
      pollLoop oracle zone fuel sent status a rl ≠ .fuelOut := by
  intro fuel
  induction fuel with
  | zero => intro sent status a rl h; omega
  | succ n ih =>
    intro sent status a rl hlt hcontra
    simp only [pollLoop] at hcontra
    split at hcontra
    · exact PollResult.noConfusion hcontra
    next resp rc hm =>
      split at hcontra
      next res hc =>
        subst hcontra
        rcases classifyResponse_done _ _ _ _ _ _ _ hc with h1 | h1 | ⟨aa2, h1⟩ | ⟨st2, aa2, h1, h2⟩ <;>
          exact PollResult.noConfusion h1
      next s' a' rl' hc =>
        obtain ⟨-, h2, h3⟩ := classifyResponse_next _ _ _ _ _ _ _ _ _ hc
        have hb := make_and_send_ok_bounds _ _ _ _ _ _ _ hm
        have hrl : 1 ≤ rl := by omega
        have hrc : 1 ≤ rc := hb.2 hrl
        exact ih _ _ _ _ (by omega) hcontra

theorem pollLoop_ok_spec (oracle : DNSQuery → Nat → AttemptOutcome) (zone : Zone) :
    ∀ fuel sent status a rl st aa r,
      pollLoop oracle zone fuel sent status a rl = .ok st aa r →
      r ≤ rl ∧ (st = "SUCCESS" ∨ (st = "NO_ZONE" ∧ aa = some 0) ∨ r = 0) := by
  intro fuel
  induction fuel with
  | zero => intro sent status a rl st aa r h; simp [pollLoop] at h
  | succ n ih =>
    intro sent status a rl st aa r h
    simp only [pollLoop] at h
    split at h
    · exact PollResult.noConfusion h
    next resp rc hm =>
      split at h
      next res hc =>
        subst h
        rcases classifyResponse_done _ _ _ _ _ _ _ hc with h1 | h1 | ⟨aa2, h1⟩ | ⟨st2, aa2, h1, h2⟩
        · exact PollResult.noConfusion h1
        · obtain ⟨e1, e2, e3⟩ := PollResult.ok.inj h1
          exact ⟨by omega, Or.inr (Or.inl ⟨e1, e2⟩)⟩
        · obtain ⟨e1, e2, e3⟩ := PollResult.ok.inj h1
          exact ⟨by omega, Or.inl e1⟩
        · obtain ⟨e1, e2, e3⟩ := PollResult.ok.inj h1
          exact ⟨by omega, Or.inr (Or.inr e3)⟩
      next s' a' rl' hc =>
        obtain ⟨hr, hdisj⟩ := ih _ _ _ _ _ _ _ h
        obtain ⟨-, h2, h3⟩ := classifyResponse_next _ _ _ _ _ _ _ _ _ hc
        exact ⟨by omega, hdisj⟩

theorem pollLoop_status (oracle : DNSQuery → Nat → AttemptOutcome) (zone : Zone) :
    ∀ fuel sent status a rl st aa r,
      pollLoop oracle zone fuel sent status a rl = .ok st aa r →
      st = "SUCCESS" ∨ st = "NO_ZONE" ∨ st = status := by
  intro fuel
  induction fuel with
  | zero => intro sent status a rl st aa r h; simp [pollLoop] at h
  | succ n ih =>
    intro sent status a rl st aa r h
    simp only [pollLoop] at h
    split at h
    · exact PollResult.noConfusion h
    next resp rc hm =>
      split at h
      next res hc =>
        subst h
        rcases classifyResponse_done _ _ _ _ _ _ _ hc with h1 | h1 | ⟨aa2, h1⟩ | ⟨st2, aa2, h1, h2⟩
        · exact PollResult.noConfusion h1
        · exact Or.inr (Or.inl (PollResult.ok.inj h1).1)
        · exact Or.inl (PollResult.ok.inj h1).1
        · have e1 := (PollResult.ok.inj h1).1
          rcases h2 with h2 | h2
          · exact Or.inr (Or.inr (e1.trans h2))
          · exact Or.inr (Or.inl (e1.trans h2))
      next s' a' rl' hc =>
        obtain ⟨hs, -, -⟩ := classifyResponse_next _ _ _ _ _ _ _ _ _ hc
        rcases ih _ _ _ _ _ _ _ h with h1 | h1 | h1
        · exact Or.inl h1
        · exact Or.inr (Or.inl h1)
        · rcases hs with hs | hs
          · exact Or.inr (Or.inr (h1.trans hs))
          · exact Or.inr (Or.inl (h1.trans hs))

theorem pollLoop_no_signal (oracle : DNSQuery → Nat → AttemptOutcome) (zone : Zone)
    (hno : ∀ i r, oracle (_make_dns_message zone.name false) i = .reply r →
      noZoneSignal (some r) = false) :
    ∀ fuel sent status a rl st aa r,
      pollLoop oracle zone fuel sent status a rl = .ok st aa r →
      st = "SUCCESS" ∨ st = status := by
  intro fuel
  induction fuel with
  | zero => intro sent status a rl st aa r h; simp [pollLoop] at h
  | succ n ih =>
    intro sent status a rl st aa r h
    simp only [pollLoop] at h
    split at h
    · exact PollResult.noConfusion h
    next resp rc hm =>
      have hresp : noZoneSignal resp = false := by
        cases resp with
        | none => rfl
        | some r0 =>
          obtain ⟨i, hi⟩ := make_and_send_some_reply _ _ _ _ _ _ _ hm
          exact hno i r0 hi
      split at h
      next res hc =>
        subst h
        rcases classifyResponse_no_signal_done _ _ _ _ _ _ _ hresp hc with h1 | ⟨aa2, h1⟩ | ⟨aa2, h1⟩
        · exact PollResult.noConfusion h1
        · exact Or.inl (PollResult.ok.inj h1).1
        · exact Or.inr (PollResult.ok.inj h1).1
      next s' a' rl' hc =>
        obtain ⟨hs, -, -⟩ := classifyResponse_no_signal_next _ _ _ _ _ _ _ _ _ hresp hc
        rcases ih _ _ _ _ _ _ _ h with h1 | h1
        · exact Or.inl h1
        · exact Or.inr (h1.trans hs)

theorem pollLoop_frame (oracle oracle' : DNSQuery → Nat → AttemptOutcome) (zone : Zone) :
    ∀ fuel sent status a rl,
      (∀ i, sent ≤ i → i < sent + rl →
        oracle' (_make_dns_message zone.name false) i = oracle (_make_dns_message zone.name false) i) →
      pollLoop oracle' zone fuel sent status a rl = pollLoop oracle zone fuel sent status a rl := by
  intro fuel
  induction fuel with
  | zero => intro sent status a rl hagree; simp [pollLoop]
  | succ n ih =>
    intro sent status a rl hagree
    have hms : _make_and_send_dns_message oracle' zone sent rl false =
        _make_and_send_dns_message oracle zone sent rl false :=
      make_and_send_frame _ _ _ _ _ _ hagree
    simp only [pollLoop, hms]
    cases hm : _make_and_send_dns_message oracle zone sent rl false with
    | raised k => dsimp only
    | ok resp rc =>
      dsimp only
      cases hc : classifyResponse zone resp status a rl rc with
      | done res => rfl
      | next s' a' rl' =>
        dsimp only
        obtain ⟨-, h2, h3⟩ := classifyResponse_next _ _ _ _ _ _ _ _ _ hc
        have hb := make_and_send_ok_bounds _ _ _ _ _ _ _ hm
        apply ih
        intro i hi1 hi2
        apply hagree i (by omega) (by omega)

theorem pollLoop_nozone_iff (oracle : DNSQuery → Nat → AttemptOutcome) (zone : Zone) :
    ∀ fuel sent status a rl st aa r,
      pollLoop oracle zone fuel sent status a rl = .ok st aa r → st ≠ "SUCCESS" →
      (st = "NO_ZONE" ↔
        (status = "NO_ZONE" ∨
          pollLoopSawNoZone oracle zone fuel sent status a rl = true)) := by
  intro fuel
  induction fuel with
  | zero =>
    intro sent status a rl st aa r h hs
    simp [pollLoop] at h
  | succ n ih =>
    intro sent status a rl st aa r h hs
    simp only [pollLoop] at h
    simp only [pollLoopSawNoZone]
    split at h
    · exact PollResult.noConfusion h
    next resp rc hm =>
      split at h
      next res hc =>
        subst h
        cases hnz : noZoneSignal resp with
        | false =>
          rcases classifyResponse_no_signal_done _ _ _ _ _ _ _ hnz hc with
            h1 | ⟨aa2, h1⟩ | ⟨aa2, h1⟩
          · exact PollResult.noConfusion h1
          · exact absurd (PollResult.ok.inj h1).1 hs
          · obtain ⟨e1, -, -⟩ := PollResult.ok.inj h1
            subst e1
            simp [hnz]
        | true =>
          rcases classifyResponse_signal_done _ _ _ _ _ _ _ hnz hc with
            h1 | ⟨aa2, h1⟩ | ⟨aa2, h1⟩
          · obtain ⟨e1, -, -⟩ := PollResult.ok.inj h1
            simp [e1, hnz]
          · exact absurd (PollResult.ok.inj h1).1 hs
          · obtain ⟨e1, -, -⟩ := PollResult.ok.inj h1
            simp [e1, hnz]
      next s' a' rl' hc =>
        have hiff := ih (sent + rc) s' a' rl' st aa r h hs
        cases hnz : noZoneSignal resp with
        | false =>
          obtain ⟨he, -, -⟩ := classifyResponse_no_signal_next _ _ _ _ _ _ _ _ _ hnz hc
          subst he
          simpa [hnz] using hiff
        | true =>
          obtain ⟨he, -, -, -⟩ := classifyResponse_signal_next _ _ _ _ _ _ _ _ _ hnz hc
          subst he
          have hst : st = "NO_ZONE" := hiff.mpr (Or.inl rfl)
          simp [hst, hnz]

/-- Authoritative NOERROR SOA response carrying one answer rrset for
`zname` with a single rdata item of the given serial. -/
def soaResponse (zname : String) (serial : Nat) : DNSResponse :=
  { rcode := rcode_NOERROR, flags := flags_AA, ednsflags := 0,
    answer := [{ name := zname, rdclass := rdataclass_IN, rdtype := rdatatype_SOA,
                 items := [{ serial := serial }] }] }

/-- Response with rcode NXDOMAIN and an empty answer section. -/
def nxResponse : DNSResponse :=
  { rcode := rcode_NXDOMAIN, flags := 0, ednsflags := 0, answer := [] }

/-- Nameserver behaviour of the C1 scenario: the first attempt yields a
valid SOA response with serial 40, every later attempt one with serial 42. -/
def oracleC1 : DNSQuery → Nat → AttemptOutcome := fun _ i =>
  if i = 0 then .reply (soaResponse "example.com." 40)
  else .reply (soaResponse "example.com." 42)

/-- Claim C1, counterexample: in the scenario zone = "example.com." with
expected serial 42, maxRetries = 2, where attempt 1 yields a valid SOA
response with serial 40 and attempt 2 one with serial 42, `get_serial_number`
does not return (SUCCESS, 42, 0): the success break precedes the budget
decrement, so the returned budget is 1. -/
theorem C1_counterexample :
    get_serial_number oracleC1 { name := "example.com.", serial := 42, action := "UPDATE" } 2 ≠
      .ok "SUCCESS" (some 42) 0 := by decide

/-- Claim C1 (amended): the concrete scenario terminates with status
SUCCESS and observed serial 42, but with retries_left = 1, because the
successful iteration breaks out of the outer loop before
`retries_left -= retry_cnt` runs. -/
theorem C1_scenario :
    get_serial_number oracleC1 { name := "example.com.", serial := 42, action := "UPDATE" } 2 =
      .ok "SUCCESS" (some 42) 1 := by decide

/-- Claim C2, counterexample: a poll of a zone with expected serial 42
whose nameserver always answers NXDOMAIN exhausts its budget of 2 without
converging and without the deletion short-circuit firing, yet terminates
with status NO_ZONE rather than ERROR: the running status set to NO_ZONE by
an earlier classification persists to the exhaustion break. -/
theorem C2_counterexample :
    get_serial_number (fun _ _ => .reply nxResponse)
        { name := "example.com.", serial := 42, action := "UPDATE" } 2 =
      .ok "NO_ZONE" none 0 ∧
    PollResult.ok "NO_ZONE" none 0 ≠ .ok "ERROR" none 0 := by decide

/-- Claim C2 (amended): a poll that terminates by returning without
SUCCESS ends with status ERROR or NO_ZONE, carrying the final observed
serial (possibly null); the status is NO_ZONE exactly when a response
obtained during some outer iteration of this run was classified as a
no-such-zone signal, and ERROR exactly when no iteration classified such a
signal.  `sawNoZoneSignal` replays the run and records that
classification. -/
theorem C2_amended_exhaustion (oracle : DNSQuery → Nat → AttemptOutcome) (zone : Zone)
    (m : Nat) (st : String) (aa : Option Nat) (r : Nat)
    (h : get_serial_number oracle zone m = .ok st aa r) (hs : st ≠ "SUCCESS") :
    (st = "ERROR" ∨ st = "NO_ZONE") ∧
    (st = "NO_ZONE" ↔ sawNoZoneSignal oracle zone m = true) ∧
    (st = "ERROR" ↔ sawNoZoneSignal oracle zone m = false) := by
  unfold get_serial_number at h
  have hdisj : st = "ERROR" ∨ st = "NO_ZONE" := by
    rcases pollLoop_status oracle zone _ _ _ _ _ _ _ _ h with h1 | h1 | h1
    · exact absurd h1 hs
    · exact Or.inr h1
    · exact Or.inl h1
  have hiff := pollLoop_nozone_iff oracle zone _ _ _ _ _ _ _ _ h hs
  have hfalse : ¬("ERROR" : String) = "NO_ZONE" := by decide
  have hnz_iff : st = "NO_ZONE" ↔ sawNoZoneSignal oracle zone m = true := by
    unfold sawNoZoneSignal
    constructor
    · intro hx
      rcases hiff.mp hx with hc | hc
      · exact absurd hc hfalse
      · exact hc
    · intro hx
      exact hiff.mpr (Or.inr hx)
  refine ⟨hdisj, hnz_iff, ?_, ?_⟩
  · intro he
    cases hb : sawNoZoneSignal oracle zone m with
    | false => rfl
    | true =>
      have hnz2 := hnz_iff.mpr hb
      rw [he] at hnz2
      exact absurd hnz2 hfalse
  · intro hb
    rcases hdisj with h1 | h1
    · exact h1
    · have hcontra := hnz_iff.mp h1
      rw [hb] at hcontra
      exact absurd hcontra (by decide)

/-- Witness for `C2_amended_exhaustion`: an all-timeout nameserver with
budget 1 exhausts to (ERROR, none, 0), no iteration having classified a
no-such-zone signal. -/
theorem C2_witness :
    (get_serial_number (fun _ _ => AttemptOutcome.timeout)
        { name := "example.com.", serial := 42, action := "UPDATE" } 1 = .ok "ERROR" none 0) ∧
    ("ERROR" = "ERROR" ∨ "ERROR" = "NO_ZONE") ∧
    ("ERROR" = "ERROR" ↔ sawNoZoneSignal (fun _ _ => AttemptOutcome.timeout)
        { name := "example.com.", serial := 42, action := "UPDATE" } 1 = false) :=
  ⟨by decide,
    (C2_amended_exhaustion (fun _ _ => .timeout)
      { name := "example.com.", serial := 42, action := "UPDATE" } 1 "ERROR" none 0
      (by decide) (by decide)).1,
    (C2_amended_exhaustion (fun _ _ => .timeout)
      { name := "example.com.", serial := 42, action := "UPDATE" } 1 "ERROR" none 0
      (by decide) (by decide)).2.2⟩

/-- Claim C3, counterexample: with attempt budget 0 the sender performs
no attempt and returns attemptsUsed = 0, which does not lie in the range
1..0 claimed for every budget including 0. -/
theorem C3_counterexample :
    _make_and_send_dns_message (fun _ _ => .timeout)
        { name := "example.com.", serial := 42, action := "UPDATE" } 0 0 false = .ok none 0 ∧
    ¬(1 ≤ 0) := by decide

/-- Claim C3 (amended): the retry count returned by the sender equals the
attempt counter of the inner loop; that counter is at most the budget and
at least 1 whenever the budget is at least 1; and the loop result depends
only on the oracle at the consumed attempt indices, so the counter is
exactly the number of send attempts performed. -/
theorem C3_attempts_used (oracle : DNSQuery → Nat → AttemptOutcome) (zone : Zone)
    (sent budget : Nat) (notify : Bool) :
    (_make_and_send_dns_message oracle zone sent budget notify).retryCount =
      (attemptLoop (oracle (_make_dns_message zone.name notify)) sent budget).2 ∧
    (attemptLoop (oracle (_make_dns_message zone.name notify)) sent budget).2 ≤ budget ∧
    (1 ≤ budget → 1 ≤ (attemptLoop (oracle (_make_dns_message zone.name notify)) sent budget).2) ∧
    (∀ send' : Nat → AttemptOutcome,
      (∀ i, sent ≤ i →
        i < sent + (attemptLoop (oracle (_make_dns_message zone.name notify)) sent budget).2 →
        send' i = oracle (_make_dns_message zone.name notify) i) →
      attemptLoop send' sent budget =
        attemptLoop (oracle (_make_dns_message zone.name notify)) sent budget) :=
  ⟨make_and_send_retryCount oracle zone sent budget notify,
    attemptLoop_count_le _ sent budget,
    fun hb => attemptLoop_count_pos _ sent budget hb,
    fun send' hagree => attemptLoop_frame _ send' sent budget hagree⟩

/-- Witness for `C3_attempts_used` with budget 2 and an all-timeout
transport. -/
theorem C3_witness :
    1 ≤ (attemptLoop (fun _ => AttemptOutcome.timeout) 0 2).2 :=
  (C3_attempts_used (fun _ _ => .timeout)
    { name := "example.com.", serial := 42, action := "UPDATE" } 0 2 false).2.2.1 (by decide)

/-- Claim C4: for a zone with expected serial 0 and pending action DELETE
or NONE, if the first attempt yields a response with rcode NXDOMAIN, the
poll terminates immediately with status NO_ZONE and observed serial 0, the
inner loop having performed exactly one attempt. -/
theorem C4_delete_short_circuit (oracle : DNSQuery → Nat → AttemptOutcome) (zone : Zone)
    (m : Nat) (r : DNSResponse)
    (hserial : zone.serial = 0)
    (haction : zone.action = "DELETE" ∨ zone.action = "NONE")
    (hm : 1 ≤ m)
    (hfirst : oracle (_make_dns_message zone.name false) 0 = .reply r)
    (hrcode : r.rcode = rcode_NXDOMAIN) :
    get_serial_number oracle zone m = .ok "NO_ZONE" (some 0) m ∧
    (attemptLoop (oracle (_make_dns_message zone.name false)) 0 m).2 = 1 := by
  obtain ⟨n, rfl⟩ : ∃ n, m = n + 1 := ⟨m - 1, by omega⟩
  have hAL : attemptLoop (oracle (_make_dns_message zone.name false)) 0 (n + 1) =
      (.gotReply r, 1) := by
    simp [attemptLoop, hfirst]
  have hfilter : responseFilter r = some r := by
    simp [responseFilter, hrcode, refused_statuses, rcode_NXDOMAIN, rcode_REFUSED,
      rcode_SERVFAIL]
  have hsend : _make_and_send_dns_message oracle zone 0 (n + 1) false = .ok (some r) 1 := by
    unfold _make_and_send_dns_message
    rw [hAL]
    dsimp only
    rw [hfilter]
  have hnz : noZoneSignal (some r) = true := by
    simp [noZoneSignal, refused_statuses, hrcode, rcode_NXDOMAIN]
  have hcl : classifyResponse zone (some r) "ERROR" none (n + 1) 1 =
      .done (.ok "NO_ZONE" (some 0) (n + 1)) := by
    unfold classifyResponse
    rw [hnz]
    rcases haction with ha | ha <;> simp [hserial, ha]
  constructor
  · unfold get_serial_number
    simp only [pollLoop, hsend, hcl]
  · rw [hAL]

/-- Witness for `C4_delete_short_circuit` on a deleted zone whose
nameserver answers NXDOMAIN. -/
theorem C4_witness :
    get_serial_number (fun _ _ => .reply nxResponse)
        { name := "example.com.", serial := 0, action := "DELETE" } 1 =
      .ok "NO_ZONE" (some 0) 1 :=
  (C4_delete_short_circuit (fun _ _ => .reply nxResponse)
    { name := "example.com.", serial := 0, action := "DELETE" } 1 nxResponse
    rfl (Or.inl rfl) (by decide) rfl rfl).1

/-- Claim C5: the response-validity filter evaluated top to bottom keeps
a response whose rcode lies in {NXDOMAIN, REFUSED, SERVFAIL} or is NOERROR
with an empty answer set; otherwise it discards the response (returning
none, so the sender returns (null, attemptsUsed)) when the AA flag is unset
or the rcode recomputed from flags/ednsflags differs from NOERROR; otherwise
it returns the response unchanged; and the sender returns exactly the
filtered response together with the attempt count. -/
theorem C5_response_validity_filter (response : DNSResponse)
    (oracle : DNSQuery → Nat → AttemptOutcome) (zone : Zone) (sent b k : Nat) (notify : Bool) :
    ((refused_statuses.contains response.rcode ||
        (response.rcode == rcode_NOERROR && response.answer.isEmpty)) = true →
      responseFilter response = some response) ∧
    ((refused_statuses.contains response.rcode ||
        (response.rcode == rcode_NOERROR && response.answer.isEmpty)) = false →
      ((response.flags &&& flags_AA == 0) ||
        (rcode_from_flags response.flags response.ednsflags != rcode_NOERROR)) = true →
      responseFilter response = none) ∧
    ((refused_statuses.contains response.rcode ||
        (response.rcode == rcode_NOERROR && response.answer.isEmpty)) = false →
      ((response.flags &&& flags_AA == 0) ||
        (rcode_from_flags response.flags response.ednsflags != rcode_NOERROR)) = false →
      responseFilter response = some response) ∧
    (attemptLoop (oracle (_make_dns_message zone.name notify)) sent b = (.gotReply response, k) →
      _make_and_send_dns_message oracle zone sent b notify = .ok (responseFilter response) k) := by
  refine ⟨?_, ?_, ?_, ?_⟩
  · intro h1
    unfold responseFilter
    rw [h1]
    simp
  · intro h1 h2
    unfold responseFilter
    rw [h1, h2]
    simp
  · intro h1 h2
    unfold responseFilter
    rw [h1, h2]
    simp
  · intro hA
    unfold _make_and_send_dns_message
    rw [hA]

/-- Witness for `C5_response_validity_filter`: an NXDOMAIN response is
kept as-is by the filter. -/
theorem C5_witness : responseFilter nxResponse = some nxResponse :=
  (C5_response_validity_filter nxResponse (fun _ _ => .timeout)
    { name := "example.com.", serial := 42, action := "UPDATE" } 0 0 0 false).1 (by decide)

/-- Claim C6: inside the sender loop an EAGAIN or timeout outcome
continues to the next attempt and is never surfaced as an error (a run of
only transient failures returns (none, budget), not a raise); a malformed
reply aborts the loop after that attempt, proceeding to post-processing
with a null response and no raise; a fatal socket error propagates to the
caller immediately, unretried. -/
theorem C6_transport_error_classes (oracle : DNSQuery → Nat → AttemptOutcome) (zone : Zone)
    (notify : Bool) (sent n b : Nat) :
    (oracle (_make_dns_message zone.name notify) sent = .eagain →
      attemptLoop (oracle (_make_dns_message zone.name notify)) sent (n + 1) =
        ((attemptLoop (oracle (_make_dns_message zone.name notify)) (sent + 1) n).1,
          (attemptLoop (oracle (_make_dns_message zone.name notify)) (sent + 1) n).2 + 1)) ∧
    (oracle (_make_dns_message zone.name notify) sent = .timeout →
      attemptLoop (oracle (_make_dns_message zone.name notify)) sent (n + 1) =
        ((attemptLoop (oracle (_make_dns_message zone.name notify)) (sent + 1) n).1,
          (attemptLoop (oracle (_make_dns_message zone.name notify)) (sent + 1) n).2 + 1)) ∧
    (oracle (_make_dns_message zone.name notify) sent = .badResponse →
      attemptLoop (oracle (_make_dns_message zone.name notify)) sent (n + 1) = (.aborted, 1) ∧
      _make_and_send_dns_message oracle zone sent (n + 1) notify = .ok none 1) ∧
    (oracle (_make_dns_message zone.name notify) sent = .fatal →
      attemptLoop (oracle (_make_dns_message zone.name notify)) sent (n + 1) = (.raised, 1) ∧
      _make_and_send_dns_message oracle zone sent (n + 1) notify = .raised 1) ∧
    ((∀ i, oracle (_make_dns_message zone.name notify) i = .eagain ∨
        oracle (_make_dns_message zone.name notify) i = .timeout) →
      _make_and_send_dns_message oracle zone sent b notify = .ok none b) := by
  refine ⟨?_, ?_, ?_, ?_, ?_⟩
  · intro h
    simp [attemptLoop, h]
  · intro h
    simp [attemptLoop, h]
  · intro h
    have hA : attemptLoop (oracle (_make_dns_message zone.name notify)) sent (n + 1) =
        (.aborted, 1) := by simp [attemptLoop, h]
    refine ⟨hA, ?_⟩
    unfold _make_and_send_dns_message
    rw [hA]
  · intro h
    have hA : attemptLoop (oracle (_make_dns_message zone.name notify)) sent (n + 1) =
        (.raised, 1) := by simp [attemptLoop, h]
    refine ⟨hA, ?_⟩
    unfold _make_and_send_dns_message
    rw [hA]
  · intro h
    have hA := attemptLoop_all_transient _ h sent b
    unfold _make_and_send_dns_message
    rw [hA]

/-- Witness for `C6_transport_error_classes`: three timeouts in a row
exhaust a budget of 3 without raising. -/
theorem C6_witness :
    _make_and_send_dns_message (fun _ _ => AttemptOutcome.timeout)
        { name := "example.com.", serial := 42, action := "UPDATE" } 0 3 false = .ok none 3 :=
  (C6_transport_error_classes (fun _ _ => .timeout)
    { name := "example.com.", serial := 42, action := "UPDATE" } false 0 0 3).2.2.2.2
    (fun _ => Or.inr rfl)

/-- Claim C7: `_make_dns_message` always builds an SOA query for the
given zone name; with notify false the opcode is QUERY and the flags are
exactly the RD bit; with notify true the opcode is NOTIFY and the flags are
exactly the AA bit.  The builder is pure by construction: its embedding is
a function of its arguments alone. -/
theorem C7_make_dns_message (zone_name : String) :
    _make_dns_message zone_name false =
      { qname := zone_name, rdtype := rdatatype_SOA, opcode := opcode_QUERY,
        flags := flags_RD } ∧
    _make_dns_message zone_name true =
      { qname := zone_name, rdtype := rdatatype_SOA, opcode := opcode_NOTIFY,
        flags := flags_AA } := by
  constructor
  · simp [_make_dns_message, make_query, flags_RD, opcode_QUERY, rdatatype_SOA]
  · simp [_make_dns_message, make_query, flags_AA, opcode_NOTIFY, opcode_QUERY, rdatatype_SOA]

/-- Claim C8: the poll always terminates (the fuel bound max_retries + 1
of the embedding is never reached, since every non-terminal outer iteration
consumes at least one attempt from the budget); any returned budget is at
most max_retries, and the poll returns only on SUCCESS, on the
short-circuited NO_ZONE, or with the budget at 0; moreover the result
depends only on the first max_retries entries of the transport oracle, so
at most max_retries transport attempts are ever performed. -/
theorem C8_budget_termination (oracle : DNSQuery → Nat → AttemptOutcome) (zone : Zone)
    (m : Nat) :
    get_serial_number oracle zone m ≠ .fuelOut ∧
    (∀ st aa r, get_serial_number oracle zone m = .ok st aa r →
      r ≤ m ∧ (st = "SUCCESS" ∨ (st = "NO_ZONE" ∧ aa = some 0) ∨ r = 0)) ∧
    (∀ oracle' : DNSQuery → Nat → AttemptOutcome,
      (∀ i, i < m →
        oracle' (_make_dns_message zone.name false) i =
          oracle (_make_dns_message zone.name false) i) →
      get_serial_number oracle' zone m = get_serial_number oracle zone m) := by
  refine ⟨?_, ?_, ?_⟩
  · unfold get_serial_number
    exact pollLoop_ne_fuelOut oracle zone (m + 1) 0 "ERROR" none m (by omega)
  · intro st aa r h
    unfold get_serial_number at h
    exact pollLoop_ok_spec oracle zone _ _ _ _ _ _ _ _ h
  · intro oracle' hagree
    unfold get_serial_number
    exact pollLoop_frame oracle oracle' zone (m + 1) 0 "ERROR" none m
      (fun i h1 h2 => hagree i (by omega))

/-- Witness for `C8_budget_termination`: an all-timeout nameserver with
budget 3 exhausts to (ERROR, none, 0), matching the returned-budget
disjunction. -/
theorem C8_witness :
    (get_serial_number (fun _ _ => AttemptOutcome.timeout)
        { name := "example.com.", serial := 42, action := "UPDATE" } 3 = .ok "ERROR" none 0) ∧
    (0 ≤ 3 ∧ ("ERROR" = "SUCCESS" ∨
      ("ERROR" = "NO_ZONE" ∧ (none : Option Nat) = some 0) ∨ 0 = 0)) :=
  ⟨by decide,
    (C8_budget_termination (fun _ _ => .timeout)
      { name := "example.com.", serial := 42, action := "UPDATE" } 3).2.1 "ERROR" none 0
      (by decide)⟩

/-- Claim C9: two polls with identical inputs against nameservers whose
observable behaviour coincides pointwise return identical results.  The
embedding is pure and `Zone` is immutable, matching the source, which never
assigns to `zone` fields, so neither call mutates the zone argument. -/
theorem C9_deterministic_pure (oracle₁ oracle₂ : DNSQuery → Nat → AttemptOutcome) (zone : Zone)
    (m : Nat) (h : ∀ q i, oracle₁ q i = oracle₂ q i) :
    get_serial_number oracle₁ zone m = get_serial_number oracle₂ zone m := by
  have heq : oracle₁ = oracle₂ := funext fun q => funext fun i => h q i
  rw [heq]

/-- Witness for `C9_deterministic_pure` on two identical all-timeout
oracles. -/
theorem C9_witness :
    get_serial_number (fun _ _ => AttemptOutcome.timeout)
        { name := "example.com.", serial := 42, action := "UPDATE" } 2 =
      get_serial_number (fun _ _ => AttemptOutcome.timeout)
        { name := "example.com.", serial := 42, action := "UPDATE" } 2 :=
  C9_deterministic_pure (fun _ _ => .timeout) (fun _ _ => .timeout)
    { name := "example.com.", serial := 42, action := "UPDATE" } 2 (fun _ _ => rfl)

/-- Claim C10: with max_retries = 0 the inner loop body never executes,
the sender returns (None, 0) having performed zero transport attempts, and
the poll terminates on its first budget check with (ERROR, None, 0). -/
theorem C10_zero_retries (oracle : DNSQuery → Nat → AttemptOutcome) (zone : Zone) :
    get_serial_number oracle zone 0 = .ok "ERROR" none 0 ∧
    _make_and_send_dns_message oracle zone 0 0 false = .ok none 0 :=
  ⟨rfl, rfl⟩

end Designate
